import Mathlib

/-! Shallow embedding of the DCD trajectory module
(package/MDAnalysis/coordinates/DCD.py): the Timestep unit-cell
permutation, the DCDWriter constructor checks and write path, the
DCDReader integer indexing, close/del lifecycle, and the timeseries
argument validation.  The compiled helpers (_dcdmodule) are not part of
the repository sources; where a claim depends on them they are modelled
from the specification, with a doc comment saying so.  Machine floats
are modelled as rationals; the numpy float32 cast is modelled by exact
round-to-nearest-even at 24 bits of precision. -/

set_option autoImplicit false

/-- Distinguishing tags for the messages of the ValueError exceptions
raised in DCD.py (the messages themselves, shortened to their
distinguishing phrase). -/
inductive ErrMsg where
  | noAtoms
  | numatomsRequired
  | dtMustBePositive
  | invalidTimeseriesFormat
  | wrongNumberOfAtoms
  deriving DecidableEq

/-- Python exceptions observable in DCD.py, following the error taxonomy
of the specification: ValueError is the InvalidArgument / DimensionMismatch
kind, NoDataError and IOError are their own kinds. -/
inductive PyErr where
  | ioError
  | indexError
  | typeError
  | attributeError
  | noDataError
  | valueError (msg : ErrMsg)
  deriving DecidableEq

/-- Powers of two on the naturals by structural recursion, so that the
kernel can evaluate every arithmetic step below. -/
def pow2n : Nat → Nat
  | 0 => 1
  | k + 1 => 2 * pow2n k

/-- Fuel-driven floor of the base-2 logarithm of a natural number
(structural recursion so the kernel can evaluate it). -/
def log2fuel : Nat → Nat → Nat
  | 0, _ => 0
  | fuel + 1, n => if 2 ≤ n then log2fuel fuel (n / 2) + 1 else 0

/-- Floor of the base-2 logarithm of a positive natural number. -/
def log2Nat (n : Nat) : Nat := log2fuel n n

/-- Floor of the base-2 logarithm of the positive rational n / d, using
only integer arithmetic: the logarithms of numerator and denominator
give the answer up to one, and a single comparison corrects it. -/
def floorLog2 (n d : ℤ) : ℤ :=
  let g : ℤ := (log2Nat n.toNat : ℤ) - (log2Nat d.toNat : ℤ)
  if 0 ≤ g then (if (pow2n g.toNat : ℤ) * d ≤ n then g else g - 1)
  else (if d ≤ (pow2n (-g).toNat : ℤ) * n then g else g - 1)

/-- Round the fraction n / d (d positive) to the nearest integer, ties to
even (the IEEE-754 default rounding used by numpy casts), using only
integer arithmetic. -/
def roundHalfEvenInt (n d : ℤ) : ℤ :=
  let f : ℤ := n.fdiv d
  let r2 : ℤ := 2 * (n - f * d)
  if r2 < d then f
  else if d < r2 then f + 1
  else if f % 2 = 0 then f else f + 1

/-- Exact value of rounding a rational to IEEE-754 single precision
(round to nearest, ties to even; subnormals round on the 2 ^ (-149)
grid).  This models the value change of numpy astype(float32). -/
def f32round (q : ℚ) : ℚ :=
  if q = 0 then 0
  else
    let n : ℤ := q.num
    let na : ℤ := if n < 0 then -n else n
    let d : ℤ := (q.den : ℤ)
    let e : ℤ := floorLog2 na d
    let e2 : ℤ := if e ≤ -126 then -126 else e
    let t : ℤ := e2 - 23
    let m : ℤ :=
      if 0 ≤ t then roundHalfEvenInt n (d * (pow2n t.toNat : ℤ))
      else roundHalfEvenInt (n * (pow2n (-t).toNat : ℤ)) d
    if 0 ≤ t then mkRat (m * (pow2n t.toNat : ℤ)) 1
    else mkRat m (pow2n (-t).toNat)

/-- numpy.take on a rational vector: result slot i holds the input slot
idx[i] (out-of-range reads give 0; never exercised on well-formed data). -/
def numpyTake (a : List ℚ) (idx : List Nat) : List ℚ :=
  idx.map (fun i => a.getD i 0)

/-- numpy.put on a rational vector: input slot idx[i] is overwritten with
v[i]. -/
def numpyPut (a : List ℚ) (idx : List Nat) (v : List ℚ) : List ℚ :=
  (idx.zip v).foldl (fun acc p => acc.set p.1 p.2) a

/-- Timestep._ts_order, the indices into Timestep._unitcell that pull out
[A, B, C, alpha, beta, gamma] (DCD.py line 42). -/
def tsOrder : List Nat := [0, 2, 5, 4, 3, 1]

/-- The DCD Timestep: atom count, the raw 6-slot unit-cell storage
_unitcell (on-disk order [A, gamma, B, beta, alpha, C]), and the three
coordinate columns of _pos. -/
structure Timestep where
  numatoms : ℤ
  unitcell : List ℚ
  xs : List ℚ
  ys : List ℚ
  zs : List ℚ
  deriving DecidableEq

/-- Timestep.dimensions getter (DCD.py lines 44-70):
numpy.take(self._unitcell, self._ts_order). -/
def Timestep.dimensions (ts : Timestep) : List ℚ :=
  numpyTake ts.unitcell tsOrder

/-- Timestep.dimensions setter (DCD.py lines 72-78):
numpy.put(self._unitcell, self._ts_order, box). -/
def Timestep.setDimensions (ts : Timestep) (box : List ℚ) : Timestep :=
  { ts with unitcell := numpyPut ts.unitcell tsOrder box }

/-- One frame as laid out on disk: the unit-cell record (six doubles, in
the order handed to the encoder) followed by the x, y, z coordinate
records. -/
structure DiskFrame where
  cell : List ℚ
  xs : List ℚ
  ys : List ℚ
  zs : List ℚ
  deriving DecidableEq

/-- Default frame used for out-of-range reads in the model. -/
def DiskFrame.empty : DiskFrame := ⟨[], [], [], []⟩

/-- Modelled from the spec: the compiled _dcdmodule frame encoder
(DCDWriter._write_next_frame) is not under src/.  Per the spec it writes
the unit-cell block as one record of six doubles, unchanged and in the
order it was handed, and then three records of 32-bit floats (x, y, z);
coordinates are stored as f32 regardless of in-memory precision. -/
def encodeFrame (cell xs ys zs : List ℚ) : DiskFrame :=
  ⟨cell, xs.map f32round, ys.map f32round, zs.map f32round⟩

/-- Modelled from the spec: the compiled _dcdmodule frame decoder
(DCDReader._read_next_frame) is not under src/.  Per the spec it fills
the reusable Timestep buffer with the record contents unchanged: the six
unit-cell doubles go into _unitcell and the coordinate records into the
_pos columns. -/
def readFrameIntoTs (ts : Timestep) (fr : DiskFrame) : Timestep :=
  { ts with unitcell := fr.cell, xs := fr.xs, ys := fr.ys, zs := fr.zs }

/-- Modelled from the spec: base.Writer.convert_dimensions_to_unitcell is
not under src/.  Per the spec and the DCD.py comment at lines 231-233 it
returns the canonical [A, B, C, alpha, beta, gamma] of the timestep; the
length-unit conversion is the identity because writer and base length
units are both Angstrom. -/
def baseConvertDimensions (ts : Timestep) : List ℚ :=
  ts.dimensions

/-- DCDWriter.convert_dimensions_to_unitcell (DCD.py lines 226-234):
numpy.take(unitcell, _ts_order) applied to the canonical box returned by
the base class. -/
def DCDWriter.convertDimensionsToUnitcell (ts : Timestep) : List ℚ :=
  numpyTake (baseConvertDimensions ts) tsOrder

/-- DCD.py line 217: the unit-cell values handed to the frame encoder are
convert_dimensions_to_unitcell(ts).astype(numpy.float32), that is the
permuted box narrowed to single precision. -/
def unitcellHandedToEncoder (ts : Timestep) : List ℚ :=
  (DCDWriter.convertDimensionsToUnitcell ts).map f32round

/-- DCDWriter state: numatoms, the optionally bound current timestep
(self.ts, absent when never set), the in-memory frame counter, the frames
written so far, the Python file-handle field self.dcdfile (None after
close), and whether the dcdfile attribute exists at all (it can be absent
on an instance whose constructor failed early, which is what the hasattr
guard in __del__ is for). -/
structure WriterState where
  numatoms : ℤ
  ts : Option Timestep
  framesWritten : ℤ
  file : List DiskFrame
  dcdfile : Option Unit
  hasDcdfileAttr : Bool
  deriving DecidableEq

/-- The successful tail of DCDWriter.write_next_timestep (DCD.py lines
217-224): build the unit-cell record from the timestep per line 217,
encode one frame (coordinate layout normalisation and the identity
Angstrom conversion do not change values), and increment frames_written. -/
def WriterState.appendFrame (w : WriterState) (t : Timestep) : WriterState :=
  { w with
    file := w.file ++ [encodeFrame (unitcellHandedToEncoder t) t.xs t.ys t.zs],
    framesWritten := w.framesWritten + 1 }

/-- DCDWriter.write_next_timestep (DCD.py lines 200-224): with no
argument, use the bound self.ts (NoDataError when absent) with no atom
count check; with an explicit timestep, raise ValueError when its atom
count differs from the writer numatoms, else write it. -/
def writeNextTimestep (w : WriterState) (tsArg : Option Timestep) :
    Except PyErr WriterState :=
  match tsArg with
  | none =>
    match w.ts with
    | none => .error .noDataError
    | some t => .ok (w.appendFrame t)
  | some t =>
    if ¬ (t.numatoms = w.numatoms) then .error (.valueError .wrongNumberOfAtoms)
    else .ok (w.appendFrame t)

/-- DCDWriter numatoms validation (DCD.py lines 133-139): numatoms == 0
raises ValueError (no atoms message), then numatoms is None raises
ValueError (numatoms required message); anything else is accepted.  Both
checks run before the output file is opened. -/
def checkNumatoms (numatoms : Option ℤ) : Except PyErr ℤ :=
  if numatoms = some 0 then .error (.valueError .noAtoms)
  else if numatoms = none then .error (.valueError .numatomsRequired)
  else .ok (numatoms.getD 0)

/-- Modelled from the spec: MDAnalysis.core.units.convert is not under
src/.  Per the spec it is a pure unit-conversion function; the DCD.py
docstring (line 112) pins convert(1, ps, AKMA) = 20.45482949774598. -/
def akmaPerPs : ℚ := 20.45482949774598

/-- Conversion of a time from ps to AKMA units via the collaborator
contract above. -/
def convertPsToAkma (x : ℚ) : ℚ := x * akmaPerPs

/-- DCDWriter (step, delta) resolution (DCD.py lines 148-157): a supplied
dt overrides both when dt > 0 (step becomes 1, delta becomes AKMA(dt)),
raises ValueError when dt <= 0; an absent dt leaves step and delta as
supplied. -/
def resolveStepDelta (step : ℤ) (delta : ℚ) : Option ℚ → Except PyErr (ℤ × ℚ)
  | some d =>
    if 0 < d then .ok (1, convertPsToAkma d)
    else .error (.valueError .dtMustBePositive)
  | none => .ok (step, delta)

/-- DCDWriter.close (DCD.py lines 236-240): _finish_dcd_write (compiled;
modelled from the spec as patching the frame count and releasing codec
resources, with no further observable state), then self.dcdfile.close()
-- which raises AttributeError when dcdfile is already None -- then
dcdfile is set to None. -/
def WriterState.close (w : WriterState) : Except PyErr WriterState :=
  if w.dcdfile = none then .error .attributeError
  else .ok { w with dcdfile := none }

/-- DCDWriter.__del__ (DCD.py lines 242-244): calls close() only when the
dcdfile attribute exists and is not None.  The Bool records whether close
was invoked. -/
def WriterState.del (w : WriterState) : Bool × Except PyErr WriterState :=
  if w.hasDcdfileAttr ∧ ¬ w.dcdfile = none then (true, w.close)
  else (false, .ok w)

/-- DCDReader state: numatoms, numframes (nsets), the reusable Timestep
buffer self.ts, the decoded file contents, and the file-handle field. -/
structure ReaderState where
  numatoms : ℤ
  numframes : ℤ
  ts : Timestep
  file : List DiskFrame
  dcdfile : Option Unit
  deriving DecidableEq

/-- DCDReader.close (DCD.py lines 424-427): _finish_dcd_read (compiled;
modelled from the spec as releasing codec resources), then
self.dcdfile.close() -- AttributeError when dcdfile is already None --
then dcdfile is set to None. -/
def ReaderState.close (r : ReaderState) : Except PyErr ReaderState :=
  if r.dcdfile = none then .error .attributeError
  else .ok { r with dcdfile := none }

/-- DCDReader.__del__ (DCD.py lines 471-473): calls close() only when
self.dcdfile is not None (the field is initialised to None first thing in
the constructor, so it always exists).  The Bool records whether close
was invoked. -/
def ReaderState.del (r : ReaderState) : Bool × Except PyErr ReaderState :=
  if ¬ r.dcdfile = none then (true, r.close)
  else (false, .ok r)

/-- The index resolution step of DCDReader.__getitem__ (DCD.py lines
358-360): a negative index is reinterpreted as len(self) + index.
len(self) is base.Reader.__len__, not under src/; modelled from the spec
as numframes, i.e. nsets. -/
def resolveIndex (numframes i : ℤ) : ℤ :=
  if i < 0 then numframes + i else i

/-- DCDReader.__getitem__ on an integer index (DCD.py lines 354-366):
after resolveIndex, an index still outside [0, numframes) raises
IndexError; otherwise the reader jumps to the frame and decodes exactly
that one frame into the reusable buffer. -/
def getitemInt (r : ReaderState) (i : ℤ) : Except PyErr Timestep :=
  if resolveIndex r.numframes i < 0 ∨
      r.numframes ≤ resolveIndex r.numframes i then
    .error .indexError
  else
    .ok (readFrameIntoTs r.ts
          (r.file.getD (resolveIndex r.numframes i).toNat DiskFrame.empty))

/-- The six valid timeseries format strings (DCD.py line 398). -/
def validFormats : List String := ["afc", "acf", "caf", "cfa", "fac", "fca"]

/-- DCDReader.timeseries argument validation (DCD.py lines 395-399), after
slice-index resolution: an empty atom selection raises NoDataError; then
the format string raises ValueError exactly when its length is not 3 AND
it is not one of the six valid formats (the conjunction is what the
source writes); otherwise decoding proceeds. -/
def timeseriesCheck (aselLen : Nat) (format : String) : Except PyErr Unit :=
  if aselLen = 0 then .error .noDataError
  else if format.length ≠ 3 ∧ format ∉ validFormats then
    .error (.valueError .invalidTimeseriesFormat)
  else .ok ()

/-- A fresh writer for a one-atom trajectory, as right after
construction: no bound timestep, no frames written, file handle open. -/
def w0 : WriterState :=
  { numatoms := 1, ts := none, framesWritten := 0, file := [],
    dcdfile := some (), hasDcdfileAttr := true }

/-- A one-atom timestep whose dimensions were set to the canonical box
(1, 2, 3, 40, 50, 60) through the Timestep.dimensions setter, with
float32-exact coordinates. -/
def ts0 : Timestep :=
  Timestep.setDimensions
    ⟨1, [0, 0, 0, 0, 0, 0], [mkRat 7 2], [mkRat 1 4], [-3]⟩
    [1, 2, 3, 40, 50, 60]

/-- A one-atom timestep whose box has the float32-inexact edge length
1/3. -/
def ts1 : Timestep :=
  Timestep.setDimensions ⟨1, [0, 0, 0, 0, 0, 0], [0], [0], [0]⟩
    [mkRat 1 3, 1, 1, 90, 90, 90]

/-- A two-atom timestep, used as a bound current timestep whose atom
count disagrees with its writer. -/
def tsBound : Timestep := ⟨2, [0, 0, 0, 0, 0, 0], [1, 2], [3, 4], [5, 6]⟩

/-- A writer for three atoms whose bound current timestep has only two
atoms. -/
def w9 : WriterState :=
  { numatoms := 3, ts := some tsBound, framesWritten := 0, file := [],
    dcdfile := some (), hasDcdfileAttr := true }

/-- The reader-allocated reusable Timestep buffer for n atoms. -/
def blankTs (n : ℤ) : Timestep := ⟨n, [0, 0, 0, 0, 0, 0], [], [], []⟩

/-- A concrete decoded disk frame for a one-atom trajectory. -/
def frA : DiskFrame := ⟨[10, 90, 10, 90, 90, 10], [1], [2], [3]⟩

/-- An open one-atom reader positioned over a two-frame file. -/
def r0 : ReaderState :=
  { numatoms := 1, numframes := 2, ts := blankTs 1, file := [frA, frA],
    dcdfile := some () }

/-- A 3-character format string that is not one of the six valid
permutations. -/
def fmtBad : String := "xyz"

/-- One of the six valid format strings. -/
def fmtAfc : String := "afc"

/-- Another of the six valid format strings. -/
def fmtAcf : String := "acf"

/-- Helper: a successful DCDReader.close can only come from an open
reader, and the state it returns is the reader with the file-handle field
set to None. -/
theorem readerClose_ok_eq (r r1 : ReaderState) (h : r.close = .ok r1) :
    r1 = { r with dcdfile := none } := by
  unfold ReaderState.close at h
  by_cases hd : r.dcdfile = none
  · rw [if_pos hd] at h
    exact Except.noConfusion h
  · rw [if_neg hd] at h
    injection h with h2
    exact h2.symm

/-- Helper: a successful DCDWriter.close can only come from an open
writer, and the state it returns is the writer with the file-handle field
set to None. -/
theorem writerClose_ok_eq (w w1 : WriterState) (h : w.close = .ok w1) :
    w1 = { w with dcdfile := none } := by
  unfold WriterState.close at h
  by_cases hd : w.dcdfile = none
  · rw [if_pos hd] at h
    exact Except.noConfusion h
  · rw [if_neg hd] at h
    injection h with h2
    exact h2.symm

/-- C8: for every 6-slot unit-cell storage and every canonical box
(A, B, C, alpha, beta, gamma), setting Timestep.dimensions and reading it
back returns exactly the same six values: _ts_order is a permutation, so
the put-then-take round trip is the identity on the data. -/
theorem dcd_C8_put_take_roundtrip (n : ℤ) (xs ys zs : List ℚ)
    (u0 u1 u2 u3 u4 u5 a b c al be ga : ℚ) :
    (Timestep.setDimensions ⟨n, [u0, u1, u2, u3, u4, u5], xs, ys, zs⟩
        [a, b, c, al, be, ga]).dimensions = [a, b, c, al, be, ga] := rfl

/-- C1, evaluated at the failing input: the one-atom timestep ts0 carries
the canonical box (1, 2, 3, 40, 50, 60); writing it through
DCDWriter.write_next_timestep and decoding the resulting frame gives the
coordinates back bit-for-bit, but the canonical unit-cell values come
back as (1, 60, 2, 40, 50, 3): the writer applies numpy.take with
_ts_order to the canonical box, while producing the on-disk layout
[A, gamma, B, beta, alpha, C] that the reader decodes requires the
inverse index operation (numpy.put), so the round trip permutes
(B, C, gamma) instead of being the identity. -/
theorem dcd_C1_roundtrip_eval :
    ts0.dimensions = [1, 2, 3, 40, 50, 60] ∧
    (writeNextTimestep w0 (some ts0)).map
        (fun w => w.file.map (fun fr =>
          ((readFrameIntoTs (blankTs 1) fr).dimensions,
           (readFrameIntoTs (blankTs 1) fr).xs,
           (readFrameIntoTs (blankTs 1) fr).ys,
           (readFrameIntoTs (blankTs 1) fr).zs)))
      = .ok [([1, 60, 2, 40, 50, 3], [mkRat 7 2], [mkRat 1 4], [-3])] :=
  ⟨rfl, rfl⟩

/-- C2 counterexample: on a concretely opened reader r0 and writer w0,
close() followed by a second close() is not a no-op: the second call
raises AttributeError, because the close body unconditionally invokes
close() on the file-handle field, which the first call set to None. -/
theorem dcd_C2_second_close_raises :
    (ReaderState.close r0).bind ReaderState.close = .error .attributeError ∧
    (WriterState.close w0).bind WriterState.close = .error .attributeError :=
  ⟨rfl, rfl⟩

/-- C2 as amended: after a first successful close() on a DCDReader or
DCDWriter the file-handle field is None, and a second close() raises
AttributeError rather than being a no-op; double-close protection exists
only in the __del__ guard. -/
theorem dcd_C2_amended (r : ReaderState) (w : WriterState)
    (r1 : ReaderState) (w1 : WriterState)
    (hr : r.close = .ok r1) (hw : w.close = .ok w1) :
    r1.dcdfile = none ∧ r1.close = .error .attributeError ∧
    w1.dcdfile = none ∧ w1.close = .error .attributeError := by
  have er := readerClose_ok_eq r r1 hr
  have ew := writerClose_ok_eq w w1 hw
  subst er
  subst ew
  exact ⟨rfl, rfl, rfl, rfl⟩

/-- C2 witness: the amended statement instantiated at the concrete open
reader r0 and writer w0. -/
theorem dcd_C2_amended_witness :
    ({ r0 with dcdfile := none } : ReaderState).dcdfile = none ∧
    ReaderState.close { r0 with dcdfile := none } = .error .attributeError ∧
    ({ w0 with dcdfile := none } : WriterState).dcdfile = none ∧
    WriterState.close { w0 with dcdfile := none } = .error .attributeError :=
  dcd_C2_amended r0 w0 { r0 with dcdfile := none } { w0 with dcdfile := none }
    rfl rfl

/-- C3 counterexample: the 3-character format string xyz is not one of the
six permutations, yet timeseries validation accepts it (the length-3 test
short-circuits the conjunction at DCD.py line 398); and an empty atom
selection raises NoDataError, not the ValueError kind.  Both parts refute
the claim that either condition fails with InvalidArgument. -/
theorem dcd_C3_format_not_rejected :
    fmtBad.length = 3 ∧ fmtBad ∉ validFormats ∧
    timeseriesCheck 1 fmtBad = .ok () ∧
    timeseriesCheck 0 fmtAfc = .error .noDataError :=
  ⟨rfl, by decide, rfl, rfl⟩

/-- C3 as amended: an empty atom selection fails with NoDataError before
any frame is decoded; with a nonempty selection, validation succeeds if
and only if the format string has length 3 or is one of the six valid
permutations — so it rejects (with ValueError) exactly the strings that
are both not of length 3 and not among the six, and every 3-character
string passes. -/
theorem dcd_C3_amended (aselLen : Nat) (format : String) :
    (aselLen = 0 → timeseriesCheck aselLen format = .error .noDataError) ∧
    (¬ aselLen = 0 →
      (timeseriesCheck aselLen format = .ok () ↔
        (format.length = 3 ∨ format ∈ validFormats))) := by
  constructor
  · intro h
    simp [timeseriesCheck, h]
  · intro h
    unfold timeseriesCheck
    rw [if_neg h]
    by_cases h3 : format.length = 3
    · simp [h3]
    · by_cases hm : format ∈ validFormats
      · simp [h3, hm]
      · simp [h3, hm]

/-- C3 witness: the amended statement applied at an empty selection with a
valid format, and at a nonempty selection with another valid format. -/
theorem dcd_C3_amended_witness :
    timeseriesCheck 0 fmtAfc = .error .noDataError ∧
    timeseriesCheck 2 fmtAcf = .ok () :=
  ⟨(dcd_C3_amended 0 fmtAfc).1 rfl,
   ((dcd_C3_amended 2 fmtAcf).2 (by decide)).mpr (Or.inr (by decide))⟩

/-- C4 counterexample: for the timestep ts1 whose box has edge length 1/3,
the values handed to the frame encoder differ from the double-precision
permuted box: slot 0 holds the float32 rounding 11184811/33554432 of 1/3,
refuting the claim that no narrowing to single precision happens before
encoding (the astype(float32) at DCD.py line 217 is the narrowing). -/
theorem dcd_C4_narrowing_cex :
    unitcellHandedToEncoder ts1 ≠ DCDWriter.convertDimensionsToUnitcell ts1 ∧
    (unitcellHandedToEncoder ts1).getD 0 0 = mkRat 11184811 33554432 ∧
    (DCDWriter.convertDimensionsToUnitcell ts1).getD 0 0 = mkRat 1 3 :=
  ⟨by decide, rfl, rfl⟩

/-- C4 as amended: the unit-cell block is still one record of six values
written as doubles, but the Writer narrows the six permuted box values to
single precision (float32) before handing them to the frame encoder, so
the record holds the float32-rounded values rather than the original
doubles. -/
theorem dcd_C4_amended (w : WriterState) (t : Timestep)
    (h : t.numatoms = w.numatoms) :
    writeNextTimestep w (some t) =
      .ok { w with
            file := w.file ++
              [encodeFrame
                ((DCDWriter.convertDimensionsToUnitcell t).map f32round)
                t.xs t.ys t.zs],
            framesWritten := w.framesWritten + 1 } ∧
    (unitcellHandedToEncoder t).length = 6 := by
  constructor
  · simp [writeNextTimestep, h, WriterState.appendFrame,
      unitcellHandedToEncoder]
  · simp [unitcellHandedToEncoder, DCDWriter.convertDimensionsToUnitcell,
      numpyTake, tsOrder]

/-- C4 witness: the amended statement instantiated at the writer w0 and
timestep ts0. -/
theorem dcd_C4_amended_witness :
    writeNextTimestep w0 (some ts0) =
      .ok { w0 with
            file := w0.file ++
              [encodeFrame
                ((DCDWriter.convertDimensionsToUnitcell ts0).map f32round)
                ts0.xs ts0.ys ts0.zs],
            framesWritten := w0.framesWritten + 1 } ∧
    (unitcellHandedToEncoder ts0).length = 6 :=
  dcd_C4_amended w0 ts0 rfl

/-- C5: for every open reader with numframes > 0, integer indexing
resolves a negative index i as numframes + i (so index -1 and index
numframes - 1 give the same result); an index still outside
[0, numframes) after resolution fails with IndexError; and an in-range
resolved index decodes exactly the one disk frame at that position into
the reusable buffer. -/
theorem dcd_C5_getitem (r : ReaderState) (i : ℤ) (h : 0 < r.numframes) :
    getitemInt r (-1) = getitemInt r (r.numframes - 1) ∧
    (i < 0 → resolveIndex r.numframes i = r.numframes + i) ∧
    (resolveIndex r.numframes i < 0 ∨
        r.numframes ≤ resolveIndex r.numframes i →
      getitemInt r i = .error .indexError) ∧
    (0 ≤ resolveIndex r.numframes i →
        resolveIndex r.numframes i < r.numframes →
      getitemInt r i =
        .ok (readFrameIntoTs r.ts
              (r.file.getD (resolveIndex r.numframes i).toNat
                DiskFrame.empty))) := by
  refine ⟨?_, ?_, ?_, ?_⟩
  · have e1 : resolveIndex r.numframes (-1) = r.numframes - 1 := by
      unfold resolveIndex
      rw [if_pos (by norm_num : (-1 : ℤ) < 0)]
      ring
    have e2 : resolveIndex r.numframes (r.numframes - 1) = r.numframes - 1 := by
      unfold resolveIndex
      rw [if_neg (by omega : ¬ (r.numframes - 1 < 0))]
    unfold getitemInt
    rw [e1, e2]
  · intro hi
    unfold resolveIndex
    rw [if_pos hi]
  · intro hc
    unfold getitemInt
    rw [if_pos hc]
  · intro h0 hlt
    unfold getitemInt
    rw [if_neg (not_or.mpr ⟨not_lt.mpr h0, not_le.mpr hlt⟩)]

/-- C5 witness: the statement instantiated at the concrete two-frame
reader r0, with indices -1, 7 (out of range) and 1 (in range). -/
theorem dcd_C5_witness :
    getitemInt r0 (-1) = getitemInt r0 (r0.numframes - 1) ∧
    resolveIndex r0.numframes (-1) = r0.numframes + (-1) ∧
    getitemInt r0 7 = .error .indexError ∧
    getitemInt r0 1 =
      .ok (readFrameIntoTs r0.ts
            (r0.file.getD (resolveIndex r0.numframes 1).toNat
              DiskFrame.empty)) :=
  ⟨(dcd_C5_getitem r0 (-1) (by decide)).1,
   (dcd_C5_getitem r0 (-1) (by decide)).2.1 (by decide),
   (dcd_C5_getitem r0 7 (by decide)).2.2.1 (by decide),
   (dcd_C5_getitem r0 1 (by decide)).2.2.2 (by decide) (by decide)⟩

/-- C6 counterexample: a negative numatoms (-5) passes the DCDWriter
constructor validation and is accepted, refuting the claim that every
numatoms <= 0 fails with InvalidArgument (the source only compares
against 0 and None). -/
theorem dcd_C6_negative_accepted : checkNumatoms (some (-5)) = .ok (-5) :=
  rfl

/-- C6 as amended: numatoms equal to 0 fails with ValueError carrying the
no-atoms message, a missing numatoms fails with ValueError carrying the
distinct numatoms-required message (both before the output file is
opened), and every nonzero numatoms — including negative values — is
accepted. -/
theorem dcd_C6_amended (n : ℤ) :
    checkNumatoms (some 0) = .error (.valueError .noAtoms) ∧
    checkNumatoms none = .error (.valueError .numatomsRequired) ∧
    (¬ n = 0 → checkNumatoms (some n) = .ok n) := by
  refine ⟨rfl, rfl, fun h => ?_⟩
  unfold checkNumatoms
  rw [if_neg (by simp [h]), if_neg (by simp)]
  rfl

/-- C6 witness: the amended statement with the nonzero branch discharged
at numatoms = 7. -/
theorem dcd_C6_amended_witness :
    checkNumatoms (some 0) = .error (.valueError .noAtoms) ∧
    checkNumatoms none = .error (.valueError .numatomsRequired) ∧
    checkNumatoms (some 7) = .ok 7 :=
  ⟨(dcd_C6_amended 7).1, (dcd_C6_amended 7).2.1,
   (dcd_C6_amended 7).2.2 (by decide)⟩

/-- C7: in the DCDWriter constructor, an absent dt leaves the supplied
step and delta untouched; a supplied dt > 0 overrides both, making step 1
and delta the ps-to-AKMA conversion of dt; and a supplied dt <= 0 fails
with ValueError. -/
theorem dcd_C7_dt_resolution (step : ℤ) (delta : ℚ) (d : ℚ) :
    resolveStepDelta step delta none = .ok (step, delta) ∧
    (0 < d →
      resolveStepDelta step delta (some d) = .ok (1, convertPsToAkma d)) ∧
    (d ≤ 0 →
      resolveStepDelta step delta (some d) =
        .error (.valueError .dtMustBePositive)) := by
  refine ⟨rfl, fun h => ?_, fun h => ?_⟩
  · show (if 0 < d then (Except.ok (1, convertPsToAkma d) : Except PyErr (ℤ × ℚ))
        else .error (.valueError .dtMustBePositive)) = .ok (1, convertPsToAkma d)
    rw [if_pos h]
  · show (if 0 < d then (Except.ok (1, convertPsToAkma d) : Except PyErr (ℤ × ℚ))
        else .error (.valueError .dtMustBePositive))
      = .error (.valueError .dtMustBePositive)
    rw [if_neg (not_lt.mpr h)]

/-- C7 witness: the statement instantiated at step 2, delta 5, with dt
absent, dt = 1 and dt = 0. -/
theorem dcd_C7_witness :
    resolveStepDelta 2 5 none = .ok (2, 5) ∧
    resolveStepDelta 2 5 (some 1) = .ok (1, convertPsToAkma 1) ∧
    resolveStepDelta 2 5 (some 0) = .error (.valueError .dtMustBePositive) :=
  ⟨(dcd_C7_dt_resolution 2 5 1).1,
   (dcd_C7_dt_resolution 2 5 1).2.1 (by norm_num),
   (dcd_C7_dt_resolution 2 5 0).2.2 (by norm_num)⟩

/-- C9 counterexample: the writer w9 expects 3 atoms but its bound current
timestep has 2; calling write_next_timestep with no argument performs no
atom-count check, writes the frame and increments the counter, refuting
the claim that the implicit path also fails with DimensionMismatch. -/
theorem dcd_C9_implicit_not_checked :
    w9.numatoms = 3 ∧ tsBound.numatoms = 2 ∧ w9.ts = some tsBound ∧
    writeNextTimestep w9 none = .ok (w9.appendFrame tsBound) ∧
    (w9.appendFrame tsBound).framesWritten = 1 :=
  ⟨rfl, rfl, rfl, rfl, rfl⟩

/-- C9 as amended: the atom-count check of write_next_timestep applies
only to an explicitly passed timestep — a mismatch then fails with
ValueError and no frame is written; the implicitly used bound timestep is
written without any atom-count check; and with neither an explicit nor a
bound timestep the call fails with NoDataError. -/
theorem dcd_C9_amended (w : WriterState) (t : Timestep) :
    (¬ t.numatoms = w.numatoms →
      writeNextTimestep w (some t) =
        .error (.valueError .wrongNumberOfAtoms)) ∧
    (t.numatoms = w.numatoms →
      writeNextTimestep w (some t) = .ok (w.appendFrame t)) ∧
    (w.ts = none → writeNextTimestep w none = .error .noDataError) ∧
    (w.ts = some t → writeNextTimestep w none = .ok (w.appendFrame t)) := by
  refine ⟨fun h => ?_, fun h => ?_, fun h => ?_, fun h => ?_⟩ <;>
    simp [writeNextTimestep, h]

/-- C9 witness: the amended statement discharged on concrete writers: an
explicit mismatched timestep errors, an explicit matching timestep is
written, the implicit path writes the mismatched bound timestep, and a
writer with no bound timestep errors with NoDataError. -/
theorem dcd_C9_amended_witness :
    writeNextTimestep w0 (some tsBound) =
      .error (.valueError .wrongNumberOfAtoms) ∧
    writeNextTimestep w0 (some ts0) = .ok (w0.appendFrame ts0) ∧
    writeNextTimestep w9 none = .ok (w9.appendFrame tsBound) ∧
    writeNextTimestep w0 none = .error .noDataError :=
  ⟨(dcd_C9_amended w0 tsBound).1 (by decide),
   (dcd_C9_amended w0 ts0).2.1 rfl,
   (dcd_C9_amended w9 tsBound).2.2.2 rfl,
   (dcd_C9_amended w0 tsBound).2.2.1 rfl⟩

/-- C10: a successful close() on a DCDReader or DCDWriter leaves the
file-handle field None; __del__ invokes close() only when the handle
field is non-None (for the writer, additionally only when the attribute
exists), so destruction of an already-closed instance performs no file
operation, and destruction of a still-open instance attempts close(). -/
theorem dcd_C10_finalization (r : ReaderState) (w : WriterState)
    (r1 : ReaderState) (w1 : WriterState)
    (hr : r.close = .ok r1) (hw : w.close = .ok w1) :
    r1.dcdfile = none ∧ w1.dcdfile = none ∧
    r1.del = (false, .ok r1) ∧ w1.del = (false, .ok w1) ∧
    (¬ r.dcdfile = none → r.del = (true, r.close)) ∧
    (w.hasDcdfileAttr = true → ¬ w.dcdfile = none →
      w.del = (true, w.close)) := by
  have er := readerClose_ok_eq r r1 hr
  have ew := writerClose_ok_eq w w1 hw
  subst er
  subst ew
  refine ⟨rfl, rfl, ?_, ?_, ?_, ?_⟩
  · simp [ReaderState.del]
  · simp [WriterState.del]
  · intro hd
    unfold ReaderState.del
    rw [if_pos hd]
  · intro ha hd
    unfold WriterState.del
    rw [if_pos ⟨ha, hd⟩]

/-- C10 witness: the statement instantiated at the concrete open reader
r0 and writer w0 and their closed states. -/
theorem dcd_C10_witness :
    ({ r0 with dcdfile := none } : ReaderState).dcdfile = none ∧
    ReaderState.del { r0 with dcdfile := none } =
      (false, .ok ({ r0 with dcdfile := none } : ReaderState)) ∧
    ReaderState.del r0 = (true, r0.close) ∧
    WriterState.del w0 = (true, w0.close) := by
  obtain ⟨h1, h2, h3, h4, h5, h6⟩ :=
    dcd_C10_finalization r0 w0 { r0 with dcdfile := none }
      { w0 with dcdfile := none } rfl rfl
  exact ⟨h1, h3, h5 (by decide), h6 rfl (by decide)⟩
